import Mathlib

/-!
Verification of the Rental-Agent repository (web voice leasing receptionist).

The file shallowly embeds the React frontend (apps/web/src) and, where the
backend component is absent from the repository sources, models the missing
component faithfully from the specification text (such definitions carry a
doc comment starting with the words Modelled from the spec).
-/

namespace RentalAgent

/-! ## Media tracks, RTC peer and the RTC client (apps/web/src/webrtc/useRtcClient.ts) -/

/-- A browser MediaStreamTrack; `stopped` records whether `track.stop()` ran. -/
structure MediaTrack where
  trackId : Nat
  stopped : Bool
deriving DecidableEq, Repr

/-- Effect of `track.stop()`. -/
def stopTrack (t : MediaTrack) : MediaTrack :=
  { t with stopped := true }

/-- An RTCRtpSender; its `track` may be null (`sender.track?.stop()` in the source). -/
structure RtpSender where
  track : Option MediaTrack
deriving DecidableEq, Repr

/-- Effect of `sender.track?.stop()`: stops the track when present, no-op otherwise. -/
def stopSenderTrack (s : RtpSender) : RtpSender :=
  { track := s.track.map stopTrack }

/-- An RTCPeerConnection: the senders added via `addTrack`, and whether `close()` ran. -/
structure PeerConnection where
  senders : List RtpSender
  closed : Bool
deriving DecidableEq, Repr

/-- The two refs held by `useRtcClient`: `peerRef` and `localStreamRef`.
Either is null before `connect` and after `disconnect`. -/
structure RtcClientState where
  peerRef : Option PeerConnection
  localStreamRef : Option (List MediaTrack)
deriving DecidableEq, Repr

/-- Result of running `disconnect`: the new ref state, plus the final state of the
objects the refs pointed to at call time (null when the corresponding ref was null). -/
structure DisconnectResult where
  state : RtcClientState
  releasedPeer : Option PeerConnection
  releasedTracks : Option (List MediaTrack)
deriving DecidableEq, Repr

/-- The `disconnect` callback of `useRtcClient` (src/unnamed/part_001, lines 156-168):
if `peerRef.current` is non-null, stop every sender track, close the peer and null the
ref; if `localStreamRef.current` is non-null, stop every local track and null the ref.
Both branches are skipped when the ref is already null. -/
def disconnect (s : RtcClientState) : DisconnectResult :=
  let peerPart : Option PeerConnection × Option PeerConnection :=
    match s.peerRef with
    | none => (none, none)
    | some p => (none, some { senders := p.senders.map stopSenderTrack, closed := true })
  let streamPart : Option (List MediaTrack) × Option (List MediaTrack) :=
    match s.localStreamRef with
    | none => (none, none)
    | some ts => (none, some (ts.map stopTrack))
  { state := { peerRef := peerPart.1, localStreamRef := streamPart.1 },
    releasedPeer := peerPart.2,
    releasedTracks := streamPart.2 }

/-- The fully disconnected ref state: both refs null. -/
def rtcIdle : RtcClientState :=
  { peerRef := none, localStreamRef := none }

/-! ## CallPanel (apps/web/src/views/CallPanel.tsx) -/

/-- Response body of `POST /api/rtc/token` as consumed by `startCall`:
`{ token: string; expires_in: number }` — it carries no session identifier. -/
structure TokenResponse where
  token : String
  expires_in : Nat
deriving DecidableEq, Repr

/-- Options passed to `rtc.connect` by `startCall`. -/
structure ConnectOptions where
  token : String
  sessionId : String
deriving DecidableEq, Repr

/-- Outcome of the `startCall` mutation: the `sessionId` React state after
`setSessionId`, and the options handed to `rtc.connect`. -/
structure StartCallOutcome where
  sessionIdState : Option String
  connectOptions : ConnectOptions
deriving DecidableEq, Repr

/-- The `startCall` mutation of CallPanel (lines 19-34): after the token fetch
succeeds with `resp`, a fresh identifier is generated locally by
`crypto.randomUUID()` (parameter `freshUuid`), stored via `setSessionId`, and
passed to `rtc.connect` together with the token from the response. -/
def startCall (resp : TokenResponse) (freshUuid : String) : StartCallOutcome :=
  { sessionIdState := some freshUuid,
    connectOptions := { token := resp.token, sessionId := freshUuid } }

/-- CallPanel state relevant to `stopCall`: the `sessionId` React state and the
RTC client refs. -/
structure CallPanelState where
  sessionId : Option String
  rtc : RtcClientState
deriving DecidableEq, Repr

/-- The `stopCall` handler (lines 36-39): `rtc.disconnect()` then `setSessionId(null)`. -/
def stopCall (c : CallPanelState) : CallPanelState × DisconnectResult :=
  let d := disconnect c.rtc
  ({ sessionId := none, rtc := d.state }, d)

/-! ## VuMeter (apps/web/src/components/VuMeter.tsx) -/

/-- The `widths` array of Tailwind classes (11 entries). -/
def vuWidths : List String :=
  ["w-0", "w-[10%]", "w-[20%]", "w-[30%]", "w-[40%]", "w-[50%]",
   "w-[60%]", "w-[70%]", "w-[80%]", "w-[90%]", "w-full"]

/-- `const clamped = Math.min(1, Math.max(0, level))`. -/
def vuClamp (level : ℚ) : ℚ :=
  min 1 (max 0 level)

/-- `Math.min(widths.length - 1, Math.round(clamped * (widths.length - 1)))`.
JavaScript `Math.round` rounds half toward positive infinity, which on the
range involved agrees with Mathlib `round` (floor of x + 1/2). -/
def vuIndex (level : ℚ) : ℤ :=
  min ((vuWidths.length : ℤ) - 1) (round (vuClamp level * ((vuWidths.length : ℚ) - 1)))

/-- The class looked up for rendering: `widths[index]`. -/
def vuBarWidth (level : ℚ) : Option String :=
  vuWidths.get? (vuIndex level).toNat

/-! ## BookingDialog (apps/web/src/components/BookingDialog.tsx) -/

/-- A viewing slot as in apps/web/src/types.ts (`start` and `end` ISO strings). -/
structure TimeSlot where
  start : String
  endTime : String
deriving DecidableEq, Repr

/-- The controlled form state of the dialog: selected slot and the three inputs. -/
structure BookingFormState where
  selectedSlot : Option TimeSlot
  name : String
  email : String
  phone : String
deriving DecidableEq, Repr

/-- `resetForm` (lines 75-80): clears the slot and all three inputs. -/
def resetForm : BookingFormState :=
  { selectedSlot := none, name := "", email := "", phone := "" }

/-- Dialog state relevant to the booking mutation: the form, whether the dialog
is open, the mutation flags `isPending` / `isError`, and a counter of
`book_viewing` requests issued (each `mutate` call issues exactly one fetch;
react-query mutations are not retried). -/
structure BookingDialogState where
  form : BookingFormState
  dialogOpen : Bool
  isPending : Bool
  isBookingError : Bool
  requestsIssued : Nat
deriving DecidableEq, Repr

/-- `disableSubmit` (lines 115-123): true when no slot is selected, when the
trimmed name or trimmed email is empty, and otherwise equals `isPending`.
The phone input is not consulted. -/
def disableSubmit (selectedSlot : Option TimeSlot) (name email : String)
    (isPending : Bool) : Bool :=
  if selectedSlot.isNone then true
  else if name.trim.isEmpty || email.trim.isEmpty then true
  else isPending

/-- Whether the Confirm booking button can fire (`disabled={disableSubmit}`). -/
def canSubmit (s : BookingDialogState) : Bool :=
  !(disableSubmit s.form.selectedSlot s.form.name s.form.email s.isPending)

/-- Clicking Confirm booking (line 222): a disabled button does nothing; an
enabled one calls `bookMutation.mutate()`, issuing exactly one request. -/
def confirmClick (s : BookingDialogState) : BookingDialogState :=
  if disableSubmit s.form.selectedSlot s.form.name s.form.email s.isPending then s
  else { s with isPending := true, requestsIssued := s.requestsIssued + 1 }

/-- Settling of the booking mutation (lines 100-113): `bookViewing` throws on a
non-ok response, so on failure react-query sets `isError` and the dialog keeps
its form; the only `onSuccess` handler runs `resetForm()` and `onClose()`.
No retry is configured, so the request count is unchanged either way. -/
def settleBooking (s : BookingDialogState) (ok : Bool) : BookingDialogState :=
  if ok then
    { form := resetForm, dialogOpen := false, isPending := false,
      isBookingError := false, requestsIssued := s.requestsIssued }
  else
    { s with isPending := false, isBookingError := true }

/-- The text of the error paragraph shown on a failed booking. -/
def bookingErrorText : String :=
  "We could not book this slot. Please pick another time."

/-- The error paragraph (lines 215-217): rendered exactly when `isBookingError`. -/
def bookingErrorMessage (s : BookingDialogState) : Option String :=
  if s.isBookingError then some bookingErrorText
  else none

/-! ## Tool Router grounding guard

The Tool Router itself is not present under the repository sources (only the
API README and the spec describe it), so it is modelled from the spec. -/

/-- Modelled from the spec: the backing record consulted by `quote_total`
(the `units` table: `rent` is NOT NULL, `deposit` is nullable; named fees). -/
structure QuoteRecord where
  rent : Int
  deposit : Option Int
  fees : List (String × Int)
deriving DecidableEq, Repr

/-- The numeric fields `quote_total` can be asked about. -/
inductive QuoteField where
  | rent
  | deposit
  | fee (feeName : String)
deriving DecidableEq, Repr

/-- Display name of a field. -/
def fieldName : QuoteField → String
  | QuoteField.rent => "rent"
  | QuoteField.deposit => "deposit"
  | QuoteField.fee n => n

/-- Reading a numeric field verbatim from the backing record. -/
def lookupField (r : QuoteRecord) : QuoteField → Option Int
  | QuoteField.rent => some r.rent
  | QuoteField.deposit => r.deposit
  | QuoteField.fee n => (r.fees.find? (fun p => p.1 == n)).map (fun p => p.2)

/-- Result of a `quote_total` field lookup: a verbatim value or the sentinel. -/
inductive FieldResult where
  | value (n : Int)
  | unknown
deriving DecidableEq, Repr

/-- Modelled from the spec: the Router returns the sentinel `unknown` when the
requested numeric field is absent from the backing record, never an
approximated or default number. -/
def quoteTotalField (r : QuoteRecord) (f : QuoteField) : FieldResult :=
  match lookupField r f with
  | some n => FieldResult.value n
  | none => FieldResult.unknown

/-- The fixed guard phrase of the hallucination guard. -/
def guardPhrase : String :=
  "I do not have that number. I can check with a person and follow up."

/-- A piece of the rendered reply: either a numeric figure attributed to a
field, or plain text. -/
inductive ReplyPart where
  | numericFigure (field : String) (n : Int)
  | text (s : String)
deriving DecidableEq, Repr

/-- Modelled from the spec: the Orchestrator renders a `quote_total` field
result — a present value becomes a numeric figure read verbatim from the
record; the sentinel becomes the fixed guard phrase with no figure. -/
def renderField (r : QuoteRecord) (f : QuoteField) : List ReplyPart :=
  match quoteTotalField r f with
  | FieldResult.value n => [ReplyPart.text (fieldName f), ReplyPart.numericFigure (fieldName f) n]
  | FieldResult.unknown => [ReplyPart.text guardPhrase]

/-! ## Booking Arbiter

The Booking Arbiter is not present under the repository sources, so it is
modelled from the spec: `reserve` performs a single atomic check-and-create
against the shared store, which serializes concurrent calls — two concurrent
reserve calls are therefore the two sequential orders of the atomic operation. -/

/-- Status of a SlotReservation. -/
inductive ResStatus where
  | held
  | confirmed
  | released
deriving DecidableEq, Repr

/-- A SlotReservation row: unit identifier, slot start, slot end, status. -/
structure SlotReservation where
  resId : Nat
  unit : String
  slotStart : String
  slotEnd : String
  status : ResStatus
deriving DecidableEq, Repr

/-- The shared reservation store (plus a fresh-id counter). -/
structure BookingStore where
  reservations : List SlotReservation
  nextId : Nat
deriving DecidableEq, Repr

/-- Whether a reservation is held-or-confirmed for the given (unit, slot start). -/
def matchesActive (u ts : String) (r : SlotReservation) : Bool :=
  r.unit == u && r.slotStart == ts
    && (r.status == ResStatus.held || r.status == ResStatus.confirmed)

/-- All held-or-confirmed reservations for (unit, slot start). -/
def activeFor (st : BookingStore) (u ts : String) : List SlotReservation :=
  st.reservations.filter (matchesActive u ts)

/-- Result of a reserve call. -/
inductive ReserveResult where
  | success (resId : Nat)
  | conflict
deriving DecidableEq, Repr

/-- Modelled from the spec: `reserve(unit, slot_start, slot_end)` as a single
atomic check-and-create — if no held-or-confirmed reservation exists for the
(unit, slot_start) key, create one in status held and succeed; otherwise fail
with a Conflict and leave the store unchanged. -/
def reserve (st : BookingStore) (u ts te : String) : ReserveResult × BookingStore :=
  if (activeFor st u ts).isEmpty then
    (ReserveResult.success st.nextId,
     { reservations :=
         { resId := st.nextId, unit := u, slotStart := ts, slotEnd := te,
           status := ResStatus.held } :: st.reservations,
       nextId := st.nextId + 1 })
  else
    (ReserveResult.conflict, st)

/-! ## Voice Activity Monitor

The Voice Activity Monitor is not present under the repository sources, so it
is modelled from the spec (section 4.1): rolling energy against a threshold,
a trigger window of consecutive above-threshold frames before `start`, and a
hangover of consecutive below-threshold frames before `stop`. -/

/-- An edge event of the monitor. -/
inductive VadEdge where
  | start
  | stop
deriving DecidableEq, Repr

/-- Monitor configuration: energy threshold, frames needed to trigger `start`,
frames needed for the hangover before `stop`. -/
structure VadConfig where
  threshold : ℚ
  triggerFrames : Nat
  hangoverFrames : Nat
deriving DecidableEq, Repr

/-- Monitor state: whether currently in the speaking state, and the counts of
consecutive above/below-threshold frames observed so far. -/
structure VadState where
  speaking : Bool
  aboveCount : Nat
  belowCount : Nat
deriving DecidableEq, Repr

/-- The initial (silent) monitor state. -/
def vadInit : VadState :=
  { speaking := false, aboveCount := 0, belowCount := 0 }

/-- Modelled from the spec: one frame of energy. While silent, count
consecutive frames whose energy exceeds the threshold and emit `start` once
the trigger window is filled; while speaking, count consecutive frames below
the threshold and emit `stop` once the hangover elapses. At most one edge per
frame, and an edge flips the speaking flag. -/
def vadStep (cfg : VadConfig) (s : VadState) (energy : ℚ) : VadState × Option VadEdge :=
  if s.speaking then
    if energy < cfg.threshold then
      if cfg.hangoverFrames ≤ s.belowCount + 1 then
        ({ speaking := false, aboveCount := 0, belowCount := 0 }, some VadEdge.stop)
      else
        ({ s with belowCount := s.belowCount + 1 }, none)
    else
      ({ s with belowCount := 0 }, none)
  else
    if cfg.threshold < energy then
      if cfg.triggerFrames ≤ s.aboveCount + 1 then
        ({ speaking := true, aboveCount := 0, belowCount := 0 }, some VadEdge.start)
      else
        ({ s with aboveCount := s.aboveCount + 1 }, none)
    else
      ({ s with aboveCount := 0 }, none)

/-- Feed a whole frame sequence; collect the emitted edges in order. -/
def vadRun (cfg : VadConfig) : VadState → List ℚ → VadState × List VadEdge
  | s, [] => (s, [])
  | s, e :: rest =>
    let step := vadStep cfg s e
    let tail := vadRun cfg step.1 rest
    (tail.1, step.2.toList ++ tail.2)

/-- Strict alternation of an edge sequence relative to the current speaking
flag: from a silent state the next edge can only be `start`, from a speaking
state only `stop`. -/
def alternatesFromB : Bool → List VadEdge → Bool
  | _, [] => true
  | false, VadEdge.start :: rest => alternatesFromB true rest
  | true, VadEdge.stop :: rest => alternatesFromB false rest
  | _, _ => false

/-! ## Turn Orchestrator

The Turn Orchestrator is not present under the repository sources, so it is
modelled from the spec (section 4.4): the five-state machine with barge-in
from `Speaking` only. -/

/-- The orchestrator states. -/
inductive TurnState where
  | listening
  | planning
  | toolDispatch
  | speaking
  | closed
deriving DecidableEq, Repr

/-- Speaker tag of a turn in the rolling buffer. -/
inductive Speaker where
  | user
  | agent
  | tool
deriving DecidableEq, Repr

/-- A committed turn: speaker, text, and whether the agent was interrupted
mid-speech (truncated utterance). -/
structure Utterance where
  speaker : Speaker
  text : String
  interrupted : Bool
deriving DecidableEq, Repr

/-- Events driving the orchestrator: voice-activity edges, a final caption,
planning-port completion or failure, tool dispatch completion, an incoming
synthesized audio frame, and natural end of speech. -/
inductive OrchEvent where
  | vadStart
  | vadStop
  | finalCaption (text : String)
  | planOk (reply : String)
  | planFail
  | toolsDone
  | ttsFrame
  | speechDone
deriving DecidableEq, Repr

/-- Observable actions of a transition: invoking `stop()` on the Speech Stream
Adapter, and forwarding an output audio frame to the caller. -/
inductive OrchAction where
  | stopSpeech
  | outputFrame
deriving DecidableEq, Repr

/-- Orchestrator state: the turn state, the rolling utterance buffer, whether
the speech stream is active, and the reply text currently being spoken. -/
structure OrchestratorState where
  turn : TurnState
  buffer : List Utterance
  speechActive : Bool
  currentReply : String
deriving DecidableEq, Repr

/-- The apology appended when planning fails. -/
def apologyText : String :=
  "Sorry, something went wrong on my side. Could you say that again?"

/-- Modelled from the spec: one transition of the Turn Orchestrator.
`Listening` commits a final caption and moves to `Planning`; `Planning` moves
to `ToolDispatch` on success or falls back to `Listening` with an apology;
`ToolDispatch` completion enters `Speaking` and starts the speech stream;
a voice-activity `start` edge during `Speaking` — and only during `Speaking` —
stops the speech stream, appends a truncated agent utterance and returns to
`Listening` (barge-in); output frames are forwarded only while `Speaking`
with an active stream. All other event/state pairs are ignored. -/
def orchStep (s : OrchestratorState) : OrchEvent → OrchestratorState × List OrchAction
  | OrchEvent.vadStart =>
    match s.turn with
    | TurnState.speaking =>
      ({ turn := TurnState.listening,
         buffer := s.buffer ++ [{ speaker := Speaker.agent, text := s.currentReply,
                                  interrupted := true }],
         speechActive := false, currentReply := "" }, [OrchAction.stopSpeech])
    | _ => (s, [])
  | OrchEvent.vadStop => (s, [])
  | OrchEvent.finalCaption t =>
    match s.turn with
    | TurnState.listening =>
      ({ s with turn := TurnState.planning,
                buffer := s.buffer ++ [{ speaker := Speaker.user, text := t,
                                         interrupted := false }] }, [])
    | _ => (s, [])
  | OrchEvent.planOk reply =>
    match s.turn with
    | TurnState.planning =>
      ({ s with turn := TurnState.toolDispatch, currentReply := reply }, [])
    | _ => (s, [])
  | OrchEvent.planFail =>
    match s.turn with
    | TurnState.planning =>
      ({ s with turn := TurnState.listening,
                buffer := s.buffer ++ [{ speaker := Speaker.agent, text := apologyText,
                                         interrupted := false }] }, [])
    | _ => (s, [])
  | OrchEvent.toolsDone =>
    match s.turn with
    | TurnState.toolDispatch =>
      ({ s with turn := TurnState.speaking, speechActive := true }, [])
    | _ => (s, [])
  | OrchEvent.ttsFrame =>
    match s.turn with
    | TurnState.speaking =>
      if s.speechActive then (s, [OrchAction.outputFrame]) else (s, [])
    | _ => (s, [])
  | OrchEvent.speechDone =>
    match s.turn with
    | TurnState.speaking =>
      ({ turn := TurnState.listening,
         buffer := s.buffer ++ [{ speaker := Speaker.agent, text := s.currentReply,
                                  interrupted := false }],
         speechActive := false, currentReply := "" }, [])
    | _ => (s, [])

/-- Run the orchestrator over an event list, concatenating the actions. -/
def orchRun (s : OrchestratorState) : List OrchEvent → OrchestratorState × List OrchAction
  | [] => (s, [])
  | e :: rest =>
    let step := orchStep s e
    let tail := orchRun step.1 rest
    (tail.1, step.2 ++ tail.2)

/-! ## Theorems -/

/-- Helper: a track that has been stopped reports `stopped`. -/
theorem stopTrack_stopped (t : MediaTrack) : (stopTrack t).stopped = true := rfl

/-- Helper: after `stopSenderTrack`, the sender's track (when present) is stopped. -/
theorem stopSenderTrack_stopped (sd : RtpSender) :
    ((stopSenderTrack sd).track.all fun t => t.stopped) = true := by
  obtain ⟨tr⟩ := sd
  cases tr <;> rfl

/-- C5: cancellation of the output stream is idempotent — `disconnect` on any
client state leaves both refs null; running it again on the result is a
complete no-op that releases nothing (and on the never-connected state it is
likewise a no-op); being a total function, it raises no error. -/
theorem c5_disconnect_idempotent (s : RtcClientState) :
    (disconnect s).state = rtcIdle ∧
    disconnect ((disconnect s).state) =
      { state := rtcIdle, releasedPeer := none, releasedTracks := none } ∧
    disconnect rtcIdle =
      { state := rtcIdle, releasedPeer := none, releasedTracks := none } := by
  obtain ⟨p, ls⟩ := s
  cases p <;> cases ls <;> exact ⟨rfl, rfl, rfl⟩

/-- C6 counterexample: at the concrete token response `{token := "tok-abc",
expires_in := 3600}` the session identifier used for the call is the locally
generated `"session-123"`, which differs from the only string the session-start
call returned, and does not depend on the response at all — so the identifier
used is not one returned by the session-start call. -/
theorem c6_counterexample :
    (startCall { token := "tok-abc", expires_in := 3600 } "session-123").connectOptions.sessionId
        = "session-123" ∧
    (startCall { token := "tok-abc", expires_in := 3600 } "session-123").connectOptions.sessionId
        ≠ "tok-abc" ∧
    (startCall { token := "tok-abc", expires_in := 3600 } "session-123").connectOptions.sessionId
        = (startCall { token := "other", expires_in := 60 } "session-123").connectOptions.sessionId := by
  refine ⟨rfl, ?_, rfl⟩
  decide

/-- C6 (amended): the session-start call returns only a token and its expiry;
the CallPanel generates a fresh identifier locally and that identifier — not
anything from the response — is stored in state and used for the call, while
the response contributes only the token. -/
theorem c6_session_id_generated_locally (resp : TokenResponse) (freshUuid : String) :
    (startCall resp freshUuid).sessionIdState = some freshUuid ∧
    (startCall resp freshUuid).connectOptions.sessionId = freshUuid ∧
    (startCall resp freshUuid).connectOptions.token = resp.token :=
  ⟨rfl, rfl, rfl⟩

/-- C7: a failed `book_viewing` request surfaces an error message, is not
retried (the request count is unchanged), and leaves the entered form state
and the open dialog untouched; only a successful booking resets the form and
closes the dialog. -/
theorem c7_booking_failure_preserved (s : BookingDialogState) :
    settleBooking s false = { s with isPending := false, isBookingError := true } ∧
    (settleBooking s false).form = s.form ∧
    (settleBooking s false).dialogOpen = s.dialogOpen ∧
    (settleBooking s false).requestsIssued = s.requestsIssued ∧
    bookingErrorMessage (settleBooking s false) = some bookingErrorText ∧
    (settleBooking s true).form = resetForm ∧
    (settleBooking s true).dialogOpen = false ∧
    (settleBooking s true).requestsIssued = s.requestsIssued :=
  ⟨rfl, rfl, rfl, rfl, rfl, rfl, rfl, rfl⟩

/-- C8: on explicit disconnect (`stopCall`), the session identifier is reset to
null, both refs are cleared, the released peer object is the old peer closed
with every sender track stopped, and the released local tracks are the old
tracks all stopped. -/
theorem c8_stopCall_releases (c : CallPanelState) :
    (stopCall c).1.sessionId = none ∧
    (stopCall c).1.rtc = rtcIdle ∧
    (stopCall c).2.releasedPeer =
      c.rtc.peerRef.map (fun p => { senders := p.senders.map stopSenderTrack, closed := true }) ∧
    (stopCall c).2.releasedTracks = c.rtc.localStreamRef.map (fun ts => ts.map stopTrack) ∧
    ((stopCall c).2.releasedPeer.all fun p =>
      p.closed && p.senders.all (fun sd => sd.track.all fun t => t.stopped)) = true ∧
    ((stopCall c).2.releasedTracks.all fun ts => ts.all fun t => t.stopped) = true := by
  obtain ⟨sid, p, ls⟩ := c
  cases p <;> cases ls <;>
    simp [stopCall, disconnect, rtcIdle, List.all_eq_true, stopSenderTrack_stopped,
      stopTrack_stopped]

/-- Helper: the widths array has 11 entries. -/
theorem vuWidths_length : vuWidths.length = 11 := rfl

/-- C9: for every rational input level — including values below 0 and above 1 —
the VuMeter clamps the level into the unit interval and computes an index
between 0 and `widths.length - 1`, so the widths lookup always succeeds. -/
theorem c9_vu_meter_in_bounds (level : ℚ) :
    0 ≤ vuClamp level ∧ vuClamp level ≤ 1 ∧
    0 ≤ vuIndex level ∧ vuIndex level ≤ (vuWidths.length : ℤ) - 1 ∧
    (vuBarWidth level).isSome = true := by
  have hc0 : 0 ≤ vuClamp level := le_min zero_le_one (le_max_left 0 level)
  have hc1 : vuClamp level ≤ 1 := min_le_left 1 (max 0 level)
  have hx0 : (0 : ℚ) ≤ vuClamp level * ((vuWidths.length : ℚ) - 1) := by
    have : (0 : ℚ) ≤ (vuWidths.length : ℚ) - 1 := by
      rw [vuWidths_length]; norm_num
    exact mul_nonneg hc0 this
  have hr0 : (0 : ℤ) ≤ round (vuClamp level * ((vuWidths.length : ℚ) - 1)) := by
    rw [round_eq]
    exact Int.floor_nonneg.mpr (by linarith)
  have hi0 : 0 ≤ vuIndex level := le_min (by rw [vuWidths_length]; norm_num) hr0
  have hi1 : vuIndex level ≤ (vuWidths.length : ℤ) - 1 := min_le_left _ _
  refine ⟨hc0, hc1, hi0, hi1, ?_⟩
  have hn : (vuIndex level).toNat < vuWidths.length := by
    have h10 : (vuIndex level).toNat ≤ ((vuWidths.length : ℤ) - 1).toNat :=
      Int.toNat_le_toNat hi1
    have : ((vuWidths.length : ℤ) - 1).toNat = 10 := by rw [vuWidths_length]; rfl
    rw [vuWidths_length]
    omega
  rw [vuBarWidth, List.get?_eq_getElem?, List.getElem?_eq_getElem hn]
  rfl

/-- C10: the Confirm booking action can fire only when a slot is selected, the
trimmed name and trimmed email are non-empty, and no request is in flight; the
phone input is not consulted (so it may be empty), and a disabled button never
issues a request. -/
theorem c10_submit_guard (s : BookingDialogState) (p : String) :
    canSubmit s = (s.form.selectedSlot.isSome && !s.form.name.trim.isEmpty
        && !s.form.email.trim.isEmpty && !s.isPending) ∧
    canSubmit { s with form := { s.form with phone := p } } = canSubmit s ∧
    confirmClick s = (if canSubmit s
        then { s with isPending := true, requestsIssued := s.requestsIssued + 1 }
        else s) := by
  obtain ⟨⟨slot, nm, em, ph⟩, dOpen, pend, err, req⟩ := s
  refine ⟨?_, rfl, ?_⟩
  · cases slot <;> simp [canSubmit, disableSubmit]
  · by_cases hd : disableSubmit slot nm em pend = true
    · simp [confirmClick, canSubmit, hd]
    · simp at hd
      simp [confirmClick, canSubmit, hd]

/-- C1: when a requested numeric field is absent from the backing record, the
`quote_total` lookup yields the sentinel `unknown`, the rendered reply is
exactly the fixed guard phrase with no numeric figure for the field; and in
general every numeric figure in a rendered reply was read verbatim from the
backing record. -/
theorem c1_quote_grounding (r : QuoteRecord) (f : QuoteField)
    (h : lookupField r f = none) :
    quoteTotalField r f = FieldResult.unknown ∧
    renderField r f = [ReplyPart.text guardPhrase] ∧
    (∀ fn n, ReplyPart.numericFigure fn n ∉ renderField r f) ∧
    (∀ (r₂ : QuoteRecord) (f₂ : QuoteField) (fn : String) (n : Int),
      ReplyPart.numericFigure fn n ∈ renderField r₂ f₂ → lookupField r₂ f₂ = some n) := by
  have hq : quoteTotalField r f = FieldResult.unknown := by
    simp [quoteTotalField, h]
  refine ⟨hq, by simp [renderField, hq], ?_, ?_⟩
  · intro fn n
    simp [renderField, hq]
  · intro r₂ f₂ fn n hmem
    cases hl : lookupField r₂ f₂ with
    | some m =>
      simp [renderField, quoteTotalField, hl] at hmem
      rw [hmem.2]
    | none =>
      simp [renderField, quoteTotalField, hl] at hmem

/-- A unit whose deposit is absent from the backing record. -/
def sampleQuoteRecord : QuoteRecord :=
  { rent := 120000, deposit := none, fees := [] }

/-- Witness for C1: a concrete record with no deposit value triggers the guard. -/
theorem c1_quote_grounding_witness :
    lookupField sampleQuoteRecord QuoteField.deposit = none ∧
    (quoteTotalField sampleQuoteRecord QuoteField.deposit = FieldResult.unknown ∧
     renderField sampleQuoteRecord QuoteField.deposit = [ReplyPart.text guardPhrase] ∧
     (∀ fn n, ReplyPart.numericFigure fn n ∉ renderField sampleQuoteRecord QuoteField.deposit) ∧
     (∀ (r₂ : QuoteRecord) (f₂ : QuoteField) (fn : String) (n : Int),
       ReplyPart.numericFigure fn n ∈ renderField r₂ f₂ → lookupField r₂ f₂ = some n)) :=
  ⟨rfl, c1_quote_grounding sampleQuoteRecord QuoteField.deposit rfl⟩

/-- C2: two reserve calls for the same (unit, slot_start) serialized by the
atomic check-and-create — with the slot initially free, the first returns
success, the second returns Conflict, afterwards exactly one held-or-confirmed
reservation exists for the key; and one reserve call always preserves the
at-most-one invariant. The two interleavings of the concurrent calls are the
two instantiations of the slot-end arguments `te₁`, `te₂`. -/
theorem c2_reserve_exactly_one (st : BookingStore) (u ts te₁ te₂ : String)
    (h : activeFor st u ts = []) :
    (reserve st u ts te₁).1 = ReserveResult.success st.nextId ∧
    (reserve (reserve st u ts te₁).2 u ts te₂).1 = ReserveResult.conflict ∧
    (reserve (reserve st u ts te₁).2 u ts te₂).2 = (reserve st u ts te₁).2 ∧
    (activeFor (reserve (reserve st u ts te₁).2 u ts te₂).2 u ts).length = 1 ∧
    (∀ (st₂ : BookingStore) (u₂ ts₂ te₃ : String),
      (activeFor st₂ u₂ ts₂).length ≤ 1 →
      (activeFor (reserve st₂ u₂ ts₂ te₃).2 u₂ ts₂).length ≤ 1) := by
  have hempty : (activeFor st u ts).isEmpty = true := by
    rw [h]; rfl
  have hfirst : reserve st u ts te₁ =
      (ReserveResult.success st.nextId,
       { reservations :=
           { resId := st.nextId, unit := u, slotStart := ts, slotEnd := te₁,
             status := ResStatus.held } :: st.reservations,
         nextId := st.nextId + 1 }) := by
    rw [reserve, if_pos hempty]
  have hactive1 : activeFor (reserve st u ts te₁).2 u ts =
      [{ resId := st.nextId, unit := u, slotStart := ts, slotEnd := te₁,
         status := ResStatus.held }] := by
    rw [hfirst]
    show List.filter _ (_ :: st.reservations) = _
    rw [List.filter_cons_of_pos (by simp [matchesActive])]
    show _ :: activeFor st u ts = _
    rw [h]
  have hnotEmpty : ¬((activeFor (reserve st u ts te₁).2 u ts).isEmpty = true) := by
    rw [hactive1]; simp
  refine ⟨by rw [hfirst], ?_, ?_, ?_, ?_⟩
  · rw [reserve, if_neg hnotEmpty]
  · rw [reserve, if_neg hnotEmpty]
  · rw [reserve, if_neg hnotEmpty, hactive1]
    rfl
  · intro st₂ u₂ ts₂ te₃ hle
    by_cases hemp : (activeFor st₂ u₂ ts₂).isEmpty = true
    · rw [reserve, if_pos hemp]
      show (List.filter _ (_ :: st₂.reservations)).length ≤ 1
      rw [List.filter_cons_of_pos (by simp [matchesActive])]
      show (_ :: activeFor st₂ u₂ ts₂).length ≤ 1
      rw [List.isEmpty_iff] at hemp
      rw [hemp]
      rfl
    · rw [reserve, if_neg hemp]
      exact hle

/-- An empty reservation store. -/
def emptyBookingStore : BookingStore :=
  { reservations := [], nextId := 0 }

/-- A concrete unit identifier for the race witness. -/
def sampleUnit : String := "unit-1"

/-- A concrete slot start for the race witness. -/
def sampleSlotStart : String := "2025-10-12T10:00:00Z"

/-- A concrete slot end for the race witness. -/
def sampleSlotEnd : String := "2025-10-12T10:30:00Z"

/-- Witness for C2: a concrete race on a free slot of the empty store. -/
theorem c2_reserve_exactly_one_witness :
    activeFor emptyBookingStore sampleUnit sampleSlotStart = [] ∧
    ((reserve emptyBookingStore sampleUnit sampleSlotStart sampleSlotEnd).1
        = ReserveResult.success emptyBookingStore.nextId ∧
     (reserve (reserve emptyBookingStore sampleUnit sampleSlotStart sampleSlotEnd).2
        sampleUnit sampleSlotStart sampleSlotEnd).1 = ReserveResult.conflict ∧
     (reserve (reserve emptyBookingStore sampleUnit sampleSlotStart sampleSlotEnd).2
        sampleUnit sampleSlotStart sampleSlotEnd).2
        = (reserve emptyBookingStore sampleUnit sampleSlotStart sampleSlotEnd).2 ∧
     (activeFor
        (reserve (reserve emptyBookingStore sampleUnit sampleSlotStart sampleSlotEnd).2
          sampleUnit sampleSlotStart sampleSlotEnd).2
        sampleUnit sampleSlotStart).length = 1 ∧
     (∀ (st₂ : BookingStore) (u₂ ts₂ te₃ : String),
       (activeFor st₂ u₂ ts₂).length ≤ 1 →
       (activeFor (reserve st₂ u₂ ts₂ te₃).2 u₂ ts₂).length ≤ 1)) :=
  ⟨rfl, c2_reserve_exactly_one emptyBookingStore sampleUnit sampleSlotStart
    sampleSlotEnd sampleSlotEnd rfl⟩

/-- Helper: each VAD step either emits no edge and keeps the speaking flag, or
emits `start` from a silent state (flag becomes true), or emits `stop` from a
speaking state (flag becomes false). -/
theorem vadStep_cases (cfg : VadConfig) (s : VadState) (e : ℚ) :
    ((vadStep cfg s e).2 = none ∧ (vadStep cfg s e).1.speaking = s.speaking) ∨
    ((vadStep cfg s e).2 = some VadEdge.start ∧ s.speaking = false ∧
      (vadStep cfg s e).1.speaking = true) ∨
    ((vadStep cfg s e).2 = some VadEdge.stop ∧ s.speaking = true ∧
      (vadStep cfg s e).1.speaking = false) := by
  cases hs : s.speaking <;>
    simp only [vadStep, hs] <;>
    split_ifs <;>
    simp_all

/-- C3: for every frame sequence fed to the Voice Activity Monitor from any
state, the emitted edge sequence strictly alternates relative to the current
speaking flag — from the speaking state the next edge can only be `stop` (so
no `start` is emitted while already speaking), and there are never two
`start`s in a row. -/
theorem c3_vad_edges_alternate (cfg : VadConfig) (s : VadState) (frames : List ℚ) :
    alternatesFromB s.speaking (vadRun cfg s frames).2 = true := by
  induction frames generalizing s with
  | nil => cases s.speaking <;> rfl
  | cons e rest ih =>
    have hih := ih ((vadStep cfg s e).1)
    show alternatesFromB s.speaking
      ((vadStep cfg s e).2.toList ++ (vadRun cfg (vadStep cfg s e).1 rest).2) = true
    rcases vadStep_cases cfg s e with ⟨h1, h2⟩ | ⟨h1, h2, h3⟩ | ⟨h1, h2, h3⟩
    · rw [h2] at hih
      rw [h1]
      exact hih
    · rw [h3] at hih
      rw [h1, h2]
      exact hih
    · rw [h3] at hih
      rw [h1, h2]
      exact hih

/-- Helper: an output frame is forwarded only while in `Speaking` with an
active speech stream. -/
theorem orchStep_frame_needs_speech (s : OrchestratorState) (e : OrchEvent)
    (hmem : OrchAction.outputFrame ∈ (orchStep s e).2) :
    s.turn = TurnState.speaking ∧ s.speechActive = true := by
  cases e <;> cases hs : s.turn <;>
    simp only [orchStep, hs] at hmem <;>
    (try split_ifs at hmem) <;>
    simp_all

/-- Helper: while the speech stream is inactive, any event other than tool
dispatch completion keeps it inactive and produces no output frame. -/
theorem orchStep_inactive_preserved (s : OrchestratorState) (e : OrchEvent)
    (hs : s.speechActive = false) (he : e ≠ OrchEvent.toolsDone) :
    (orchStep s e).1.speechActive = false ∧
    OrchAction.outputFrame ∉ (orchStep s e).2 := by
  cases e <;> cases ht : s.turn <;>
    simp_all [orchStep]

/-- Helper: a run from a state with inactive speech that never sees a tool
dispatch completion emits no output frame. -/
theorem orchRun_no_frames (events : List OrchEvent) (s : OrchestratorState)
    (hs : s.speechActive = false) (hev : OrchEvent.toolsDone ∉ events) :
    OrchAction.outputFrame ∉ (orchRun s events).2 := by
  induction events generalizing s with
  | nil => simp [orchRun]
  | cons e rest ih =>
    have hne : e ≠ OrchEvent.toolsDone := fun hcontra => hev (hcontra ▸ List.mem_cons_self e rest)
    have hrest : OrchEvent.toolsDone ∉ rest := fun hcontra => hev (List.mem_cons_of_mem e hcontra)
    obtain ⟨h1, h2⟩ := orchStep_inactive_preserved s e hs hne
    show OrchAction.outputFrame ∉ (orchStep s e).2 ++ (orchRun (orchStep s e).1 rest).2
    intro hmem
    rcases List.mem_append.mp hmem with hmem | hmem
    · exact h2 hmem
    · exact ih ((orchStep s e).1) h1 hrest hmem

/-- C4: a voice-activity `start` edge while the orchestrator is `Speaking`
invokes `stop()` on the Speech Stream Adapter, appends a truncated agent
Utterance, transitions to `Listening` with the speech stream inactive, and no
output frame is observed then or in any subsequent run that does not start a
new speaking turn; `Speaking` is the only state in which a `start` edge has
any effect. -/
theorem c4_barge_in (s : OrchestratorState) (h : s.turn = TurnState.speaking) :
    OrchAction.stopSpeech ∈ (orchStep s OrchEvent.vadStart).2 ∧
    (orchStep s OrchEvent.vadStart).1.buffer
      = s.buffer ++ [{ speaker := Speaker.agent, text := s.currentReply,
                       interrupted := true }] ∧
    (orchStep s OrchEvent.vadStart).1.turn = TurnState.listening ∧
    (orchStep s OrchEvent.vadStart).1.speechActive = false ∧
    OrchAction.outputFrame ∉ (orchStep s OrchEvent.vadStart).2 ∧
    (∀ events, OrchEvent.toolsDone ∉ events →
      OrchAction.outputFrame ∉ (orchRun (orchStep s OrchEvent.vadStart).1 events).2) ∧
    (∀ s₂, s₂.turn ≠ TurnState.speaking → orchStep s₂ OrchEvent.vadStart = (s₂, [])) := by
  have hstep : orchStep s OrchEvent.vadStart =
      ({ turn := TurnState.listening,
         buffer := s.buffer ++ [{ speaker := Speaker.agent, text := s.currentReply,
                                  interrupted := true }],
         speechActive := false, currentReply := "" }, [OrchAction.stopSpeech]) := by
    simp [orchStep, h]
  refine ⟨by rw [hstep]; exact List.mem_singleton.mpr rfl, by rw [hstep], by rw [hstep],
    by rw [hstep], by rw [hstep]; simp, ?_, ?_⟩
  · intro events hev
    exact orchRun_no_frames events _ (by rw [hstep]) hev
  · intro s₂ hne
    cases ht : s₂.turn <;> simp_all [orchStep]

/-- A concrete mid-speech orchestrator state. -/
def sampleSpeakingState : OrchestratorState :=
  { turn := TurnState.speaking, buffer := [], speechActive := true,
    currentReply := "The rent is 120000 per month." }

/-- Witness for C4: barge-in from a concrete `Speaking` state. -/
theorem c4_barge_in_witness :
    sampleSpeakingState.turn = TurnState.speaking ∧
    (OrchAction.stopSpeech ∈ (orchStep sampleSpeakingState OrchEvent.vadStart).2 ∧
     (orchStep sampleSpeakingState OrchEvent.vadStart).1.buffer
       = sampleSpeakingState.buffer
           ++ [{ speaker := Speaker.agent, text := sampleSpeakingState.currentReply,
                 interrupted := true }] ∧
     (orchStep sampleSpeakingState OrchEvent.vadStart).1.turn = TurnState.listening ∧
     (orchStep sampleSpeakingState OrchEvent.vadStart).1.speechActive = false ∧
     OrchAction.outputFrame ∉ (orchStep sampleSpeakingState OrchEvent.vadStart).2 ∧
     (∀ events, OrchEvent.toolsDone ∉ events →
       OrchAction.outputFrame ∉
         (orchRun (orchStep sampleSpeakingState OrchEvent.vadStart).1 events).2) ∧
     (∀ s₂, s₂.turn ≠ TurnState.speaking → orchStep s₂ OrchEvent.vadStart = (s₂, []))) :=
  ⟨rfl, c4_barge_in sampleSpeakingState rfl⟩

end RentalAgent
